import Mathlib

set_option autoImplicit false
set_option maxRecDepth 40000

/-!
Shallow embedding of the RAG pipeline of the `asistente-chatbot` repository.

Python strings are modelled as `List Char`; Python `float` quantities
(similarity scores, latency, cost) are modelled as `ℚ`; Python integer
indices (which may be negative in slices and list subscripts) are `ℤ`.
-/

abbrev Str := List Char

/-! ## Python string primitives used by the chunker -/

/-- Python slice-bound adjustment: a negative index counts from the end,
then the result is clamped into `[0, len]`. -/
def pyBound (len : ℕ) (i : ℤ) : ℕ :=
  if i < 0 then (if i + len < 0 then 0 else (i + len).toNat) else min i.toNat len

/-- Python `text[a:b]` (step 1). -/
def pySlice (s : Str) (a b : ℤ) : Str :=
  (s.take (pyBound s.length b)).drop (pyBound s.length a)

/-- Python `str.strip()` with the default whitespace set. -/
def pyStrip (s : Str) : Str :=
  ((s.dropWhile Char.isWhitespace).reverse.dropWhile Char.isWhitespace).reverse

/-- Python `w.rfind(sub)` for non-empty `sub`: the largest start index at
which `sub` occurs in `w`, or `-1` when it does not occur. -/
def pyRfind (w sub : Str) : ℤ :=
  match ((List.range w.length).filter (fun i => sub.isPrefixOf (w.drop i))).getLast? with
  | some i => (i : ℤ)
  | none => -1

/-! ## The chunker (`DocumentIngester.chunk_text`, src/scripts/ingest_documents.py) -/

/-- The `break_points` list of `chunk_text`: the `rfind` result for each
boundary marker, in the source's priority order. -/
def breakFinds (w : Str) : List ℤ :=
  [ pyRfind w ['.', ' '], pyRfind w ['?', ' '], pyRfind w ['!', ' '],
    pyRfind w [':', ' '], pyRfind w [';', ' '], pyRfind w [',', ' '],
    pyRfind w [' '] ]

/-- The cut position of one window of `chunk_text`.  `end = start + chunk_size`;
if `end < len(text)` the first break point `bp` (in priority order) with
`bp > chunk_size * 0.6` snaps the cut to `start + bp + 1`.
The float guard `bp > chunk_size * 0.6` is modelled exactly as the integer
comparison `10 * bp > 6 * chunk_size`: for an integer `bp` the two agree for
every `chunk_size` far below 2^53, since the double product `chunk_size * 0.6`
rounds to `0.6 * chunk_size` whenever the latter is an integer, and otherwise
lies strictly between the neighbouring integers. -/
def cutEnd (cs : ℕ) (text : Str) (start : ℤ) : ℤ :=
  if start + (cs : ℤ) < (text.length : ℤ) then
    match (breakFinds (pySlice text start (start + (cs : ℤ)))).find?
        (fun bp => 10 * bp > 6 * (cs : ℤ)) with
    | some bp => start + bp + 1
    | none => start + (cs : ℤ)
  else start + (cs : ℤ)

/-- The segment produced by one window of `chunk_text`:
`chunk = text[start:end].strip()`, kept only when
`chunk and len(chunk) > 50`. -/
def keptChunk (cs : ℕ) (text : Str) (start : ℤ) : Option Str :=
  let ck := pyStrip (pySlice text start (cutEnd cs text start))
  if ck ≠ [] ∧ 50 < ck.length then some ck else none

/-- One iteration record of the `chunk_text` loop: the window start, the cut
position `end`, and the kept segment (if any). -/
def iterRec (cs : ℕ) (text : Str) (start : ℤ) : ℤ × ℤ × Option Str :=
  (start, cutEnd cs text start, keptChunk cs text start)

/-- The `while start < len(text)` loop of `chunk_text`, instrumented to record
each iteration's window.  The loop in the source has no termination guarantee
(the next start is `end - chunk_overlap`, which need not advance), so the
model is fuel-indexed: `none` means the fuel ran out before the loop exited. -/
def chunkIters (cs ov : ℕ) (text : Str) : ℕ → ℤ → Option (List (ℤ × ℤ × Option Str))
  | 0, _ => none
  | fuel + 1, start =>
    if start < (text.length : ℤ) then
      if cutEnd cs text start - (ov : ℤ) ≥ (text.length : ℤ) then
        some [iterRec cs text start]
      else
        (chunkIters cs ov text fuel (cutEnd cs text start - (ov : ℤ))).map
          (fun l => iterRec cs text start :: l)
    else some []

/-- `DocumentIngester.chunk_text`: texts of at most `chunk_size` characters are
returned whole as a single segment; longer texts go through the sliding-window
loop, whose kept segments are collected in order. -/
def chunk_text (cs ov fuel : ℕ) (text : Str) : Option (List Str) :=
  if text.length ≤ cs then some [text]
  else (chunkIters cs ov text fuel 0).map (fun l => l.filterMap (fun r => r.2.2))

/-- A 100-character text of `a`s (no break-point characters at all). -/
def aText : Str := List.replicate 100 'a'

/-- Streamed text on which the `chunk_text` loop never terminates with
`chunk_size = 100`, `chunk_overlap = 90`: 98 times `a`, then `". "`, then
100 times `b`. -/
def t200 : Str := List.replicate 98 'a' ++ ('.' :: ' ' :: List.replicate 100 'b')

/-! ## Data model (`DocumentChunk`, src/scripts/ingest_documents.py) -/

structure DocumentChunk where
  doc_id : Str
  title : Str
  content : Str
  page : ℕ
  chunk_id : Str
  url : Str
  vigencia : Str
deriving DecidableEq, Repr

/-! ## Vector index search (`EmbeddingSystem.search`, src/rag/embedding_system.py)

The embedding model is an external collaborator: the model abstracts the
embedded, L2-normalized corpus into the list `scores` of inner products of the
(normalized) query vector with each stored row, one entry per stored chunk, in
row order.  `faiss.IndexFlatIP.search` is an external library call, modelled
from its documented behaviour: it returns the `k` highest-scoring row ids in
descending score order, ties broken by the lower row id, and when fewer than
`k` rows are stored the remaining result slots are filled with id `-1` and a
minimal sentinel score. -/

/-- Sentinel score FAISS places in padded (missing) result slots; its exact
value is irrelevant to every claim, only the paired id `-1` matters. -/
def faissLowest : ℚ := -(10 ^ 9)

/-- Pick the highest-scoring `(id, score)` row, earlier ids winning ties. -/
def pickBest (rows : List (ℕ × ℚ)) : Option (ℕ × ℚ) :=
  rows.foldl
    (fun best r =>
      match best with
      | none => some r
      | some b => if r.2 > b.2 then some r else some b)
    none

/-- Top-`k` selection of `faiss.IndexFlatIP.search`, as `(score, id)` pairs
padded with `(faissLowest, -1)` once the rows are exhausted. -/
def faissTopK : List (ℕ × ℚ) → ℕ → List (ℚ × ℤ)
  | _, 0 => []
  | rows, k + 1 =>
    match pickBest rows with
    | none => List.replicate (k + 1) (faissLowest, -1)
    | some b => (b.2, (b.1 : ℤ)) :: faissTopK (rows.filter (fun r => r.1 ≠ b.1)) k

/-- `faiss` search over the stored rows whose query similarities are `scores`. -/
def faissSearch (scores : List ℚ) (k : ℕ) : List (ℚ × ℤ) :=
  faissTopK scores.enum k

/-- Python list subscript `chunks[i]`, including the negative-index wrap;
`none` models the `IndexError` exception. -/
def pyGet (chunks : List DocumentChunk) (i : ℤ) : Option DocumentChunk :=
  if 0 ≤ i then chunks[i.toNat]?
  else if 0 ≤ i + (chunks.length : ℤ) then chunks[(i + (chunks.length : ℤ)).toNat]?
  else none

/-- The result loop of `EmbeddingSystem.search`:
`for score, idx in zip(scores[0], indices[0]): if idx < len(self.chunks):
results.append((self.chunks[idx], float(score)))`. -/
def collectResults (chunks : List DocumentChunk) :
    List (ℚ × ℤ) → Option (List (DocumentChunk × ℚ))
  | [] => some []
  | (score, idx) :: rest =>
    if idx < (chunks.length : ℤ) then
      match pyGet chunks idx with
      | none => none
      | some c => (collectResults chunks rest).map (fun l => (c, score) :: l)
    else collectResults chunks rest

/-- `EmbeddingSystem.search` on a built index whose stored chunks are `chunks`
(row `i` of the vector matrix belonging to `chunks[i]`) and whose row
similarities to the query are `scores`. -/
def searchModel (chunks : List DocumentChunk) (scores : List ℚ) (k : ℕ) :
    Option (List (DocumentChunk × ℚ)) :=
  collectResults chunks (faissSearch scores k)

/-! ## Retriever (`RAGSystem.retrieve_context`, src/rag/rag_system.py) -/

/-- The source dict built per hit in `retrieve_context`. -/
structure SourceRec where
  title : Str
  page : ℕ
  content : Str
  doc_id : Str
  score : ℚ
  url : Str
  vigencia : Str
deriving DecidableEq, Repr

/-- One retrieved source: `chunk.content[:300] + "..."` as preview, full
metadata and the similarity score. -/
def mkSource (c : DocumentChunk) (score : ℚ) : SourceRec :=
  { title := c.title
    page := c.page
    content := c.content.take 300 ++ ("..." : String).data
    doc_id := c.doc_id
    score := score
    url := c.url
    vigencia := c.vigencia }

/-- The context block `f"[{chunk.title}, página {chunk.page}]: {chunk.content}"`. -/
def contextBlock (c : DocumentChunk) : Str :=
  ("[" : String).data ++ c.title ++ (", página " : String).data
    ++ (toString c.page).data ++ ("]: " : String).data ++ c.content

/-- `RAGSystem.retrieve_context`, parametrized by the search results the
embedding system returned for the rewritten query. -/
def retrieve_context (results : List (DocumentChunk × ℚ)) : Str × List SourceRec :=
  if results = [] then ([], [])
  else
    (List.intercalate ('\n' :: '\n' :: []) (results.map (fun r => contextBlock r.1)),
     results.map (fun r => mkSource r.1 r.2))

/-! ## Answer router (`RAGSystem`, src/rag/rag_system.py) -/

/-- Outcome of one provider `chat` call for the query under consideration:
the success dict carries the answer text, total token count, latency and
estimated cost; the error dict (produced by the provider's `except` clause)
carries the error message.  The dispatch decisions of the Router depend only
on this outcome, so the call is abstracted to its result. -/
inductive ChatOutcome where
  | ok (response : Str) (total_tokens : ℕ) (latency : ℚ) (cost : ℚ)
  | err (message : Str)
deriving DecidableEq, Repr

def ChatOutcome.isOk : ChatOutcome → Bool
  | .ok .. => true
  | .err _ => false

/-- A configured generation backend: display name plus the outcome of its
chat call for the query under consideration. -/
structure Provider where
  name : Str
  chat : ChatOutcome
deriving DecidableEq, Repr

/-- `RAGResponse` (src/rag/rag_system.py). -/
structure RAGResponse where
  answer : Str
  sources : List SourceRec
  provider_name : Str
  tokens_used : ℕ
  latency : ℚ
  cost : ℚ
deriving DecidableEq, Repr

/-- The fixed abstention message of `RAGSystem.should_abstain`. -/
def abstentionMessage : Str :=
  ("No encontré información sobre esto en la normativa UFRO disponible. Te sugiero contactar a la Dirección de Asuntos Estudiantiles o la Secretaría Académica." : String).data

/-- `RAGSystem.should_abstain`: abstain exactly when no sources were found. -/
def should_abstain (sources : List SourceRec) : Option Str :=
  if sources = [] then some abstentionMessage else none

/-- The synthetic response produced on abstention. -/
def systemResponse : RAGResponse :=
  { answer := abstentionMessage
    sources := []
    provider_name := ("System" : String).data
    tokens_used := 0
    latency := 0
    cost := 0 }

/-- Python lower-casing of a name, character by character. -/
def lowerStr (s : Str) : Str := s.map Char.toLower

/-- Python `needle in hay` for strings: contiguous-substring test. -/
def strContains (hay needle : Str) : Bool :=
  (List.range (hay.length + 1)).any (fun i => needle.isPrefixOf (hay.drop i))

/-- The dispatch filter `provider_name.lower() in p.name.lower()`. -/
def nameMatches (requested : Str) (p : Provider) : Bool :=
  strContains (lowerStr p.name) (lowerStr requested)

/-- Build the `RAGResponse` for one provider, `none` when its chat call
returned an error dict (`if 'error' in result: continue`). -/
def mkResponse (sources : List SourceRec) (p : Provider) : Option RAGResponse :=
  match p.chat with
  | .err _ => none
  | .ok resp tt lat cost =>
    some { answer := resp, sources := sources, provider_name := p.name,
           tokens_used := tt, latency := lat, cost := cost }

/-- `RAGSystem.process_query`, parametrized by the search results of the
rewritten query.  `provider_name = none` models Python `None`; the empty
string is falsy in Python, hence the explicit `pn ≠ []` guard. -/
def process_query (results : List (DocumentChunk × ℚ)) (provider_name : Option Str)
    (providers : List Provider) : List RAGResponse :=
  let cs := retrieve_context results
  match should_abstain cs.2 with
  | some msg =>
    [{ answer := msg, sources := [], provider_name := ("System" : String).data,
       tokens_used := 0, latency := 0, cost := 0 }]
  | none =>
    let ps :=
      match provider_name with
      | some pn => if pn ≠ [] then providers.filter (nameMatches pn) else providers
      | none => providers
    ps.filterMap (mkResponse cs.2)

/-! ## Provider cost estimation (src/providers/chatgpt.py, deepseek.py) -/

/-- `ChatGPTProvider.PRICING` (USD per 1K tokens). -/
def chatgptPRICING : List (Str × ℚ × ℚ) :=
  [ (("gpt-4" : String).data, 0.03, 0.06),
    (("gpt-4-turbo" : String).data, 0.01, 0.03),
    (("gpt-3.5-turbo" : String).data, 0.001, 0.002) ]

/-- `DeepSeekProvider.PRICING` (USD per 1K tokens). -/
def deepseekPRICING : List (Str × ℚ × ℚ) :=
  [ (("deepseek-chat" : String).data, 0.00014, 0.00028),
    (("deepseek-reasoner" : String).data, 0.00055, 0.0022) ]

/-- `estimate_cost` shared by both providers: look the model up in the price
table; on a hit, `input_tokens / 1000 * input_rate + output_tokens / 1000 *
output_rate`; on a miss, `0.0`. -/
def estimate_cost (pricing : List (Str × ℚ × ℚ)) (model : Str)
    (input_tokens output_tokens : ℕ) : ℚ :=
  match pricing.find? (fun e => e.1 == model) with
  | some e => (input_tokens : ℚ) / 1000 * e.2.1 + (output_tokens : ℚ) / 1000 * e.2.2
  | none => 0

/-! ## Evaluator metrics (`EvaluationMetrics`, src/eval/evaluator.py) -/

/-- `EvaluationMetrics.calculate_citation_coverage`: 1.0 when no sources are
expected, else |cited set ∩ expected set| / |expected set|. -/
def calculate_citation_coverage (response : RAGResponse) (expected_sources : List Str) : ℚ :=
  if expected_sources = [] then 1
  else
    (((response.sources.map (fun s => s.doc_id)).dedup.filter
        (fun d => d ∈ expected_sources)).length : ℚ)
      / (expected_sources.dedup.length : ℚ)

/-- `EvaluationMetrics.calculate_precision_at_k`: 0.0 when either list is
empty, else the fraction of the top-`k` retrieved sources whose doc id is
expected, over `min k (number retrieved)`. -/
def calculate_precision_at_k (retrieved_sources : List SourceRec)
    (expected_sources : List Str) (k : ℕ) : ℚ :=
  if expected_sources = [] ∨ retrieved_sources = [] then 0
  else
    (((retrieved_sources.take k).filter
        (fun s => s.doc_id ∈ expected_sources)).length : ℚ)
      / ((min k (retrieved_sources.take k).length : ℕ) : ℚ)

/-! ## Concrete fixtures used by the counterexamples and witnesses -/

def chunkA : DocumentChunk :=
  { doc_id := ("DOC1" : String).data
    title := ("Reglamento de Matrícula" : String).data
    content := List.replicate 400 'a'
    page := 1
    chunk_id := ("DOC1_p1_c0" : String).data
    url := ("https://example.org/doc1" : String).data
    vigencia := ("vigente" : String).data }

/-- A chunk whose content (5 characters) is far below the 300-character
preview cap. -/
def chunkShort : DocumentChunk :=
  { doc_id := ("DOC2" : String).data
    title := ("Reglamento de Admisión" : String).data
    content := ("short" : String).data
    page := 2
    chunk_id := ("DOC2_p2_c0" : String).data
    url := ("https://example.org/doc2" : String).data
    vigencia := ("vigente" : String).data }

def providerOkA : Provider :=
  { name := ("ChatGPT (gpt-4)" : String).data
    chat := .ok (("respuesta A" : String).data) 120 2 1 }

def providerOkB : Provider :=
  { name := ("DeepSeek (deepseek-chat)" : String).data
    chat := .ok (("respuesta B" : String).data) 90 1 1 }

def providerBad : Provider :=
  { name := ("Gemini (gemini-pro)" : String).data
    chat := .err (("rate limited" : String).data) }

/-- One-row search result fixture. -/
def demoResults : List (DocumentChunk × ℚ) := [(chunkA, 1)]

/-- The iteration list `chunk_text` produces on `aText` with
`chunk_size = 60`, `chunk_overlap = 10`. -/
def c4It : List (ℤ × ℤ × Option Str) :=
  [(0, 60, some (List.replicate 60 'a')), (50, 110, none)]

/-! ## Helper lemmas -/

theorem t200_length : t200.length = 200 := by decide

theorem cutEnd_t200_zero : cutEnd 100 t200 0 = 99 := by decide

theorem cutEnd_t200_nine : cutEnd 100 t200 9 = 99 := by decide

/-- With `chunk_size = 100` and `chunk_overlap = 90` the loop on `t200` is
stuck at window start 9: every unit of fuel performs one more iteration whose
next start is again 9, so no amount of fuel reaches the exit. -/
theorem chunkIters_t200_stuck : ∀ fuel : ℕ, chunkIters 100 90 t200 fuel 9 = none := by
  intro fuel
  induction fuel with
  | zero => rfl
  | succ f ih =>
    have hstep : chunkIters 100 90 t200 (f + 1) 9
        = (chunkIters 100 90 t200 f 9).map (fun l => iterRec 100 t200 9 :: l) := by
      simp only [chunkIters, cutEnd_t200_nine, t200_length]
      norm_num
    rw [hstep, ih]
    rfl

/-- Coverage invariant of the `chunk_text` loop: whenever the loop terminates,
the recorded windows cover every text position below `text.length`, starting
from any entry state whose start is at most the already-covered bound `M`. -/
theorem chunkIters_cover (cs ov : ℕ) (text : Str) :
    ∀ (fuel : ℕ) (start M : ℤ) (iters : List (ℤ × ℤ × Option Str)),
      start ≤ M →
      chunkIters cs ov text fuel start = some iters →
      ∀ c : ℤ, 0 ≤ c → c < (text.length : ℤ) →
        c < M ∨ ∃ r ∈ iters, r.1 ≤ c ∧ c < r.2.1 := by
  intro fuel
  induction fuel with
  | zero =>
    intro start M iters _ h
    exact Option.noConfusion h
  | succ f ih =>
    intro start M iters hsM hit c hc0 hclen
    rw [chunkIters] at hit
    by_cases hs : start < (text.length : ℤ)
    · rw [if_pos hs] at hit
      by_cases hexit : cutEnd cs text start - (ov : ℤ) ≥ (text.length : ℤ)
      · rw [if_pos hexit] at hit
        injection hit with hit
        subst hit
        by_cases hcM : c < M
        · exact Or.inl hcM
        · refine Or.inr ⟨iterRec cs text start, by simp, ?_, ?_⟩
          · show start ≤ c
            omega
          · show c < cutEnd cs text start
            omega
      · rw [if_neg hexit] at hit
        cases hrec : chunkIters cs ov text f (cutEnd cs text start - (ov : ℤ)) with
        | none => rw [hrec] at hit; simp at hit
        | some rest =>
          rw [hrec] at hit
          simp at hit
          subst hit
          have hstep := ih (cutEnd cs text start - (ov : ℤ))
            (max M (cutEnd cs text start)) rest (by omega) hrec c hc0 hclen
          rcases hstep with h1 | ⟨r, hr, hr1, hr2⟩
          · rcases lt_max_iff.mp h1 with h | h
            · exact Or.inl h
            · by_cases hcM : c < M
              · exact Or.inl hcM
              · refine Or.inr ⟨iterRec cs text start, by simp, ?_, ?_⟩
                · show start ≤ c
                  omega
                · show c < cutEnd cs text start
                  omega
          · exact Or.inr ⟨r, by simp [hr], hr1, hr2⟩
    · rw [if_neg hs] at hit
      injection hit with hit
      subst hit
      exact Or.inl (by omega)

/-! ## Claim C3 -/

/-- Claim C3 counterexample: the text `"abc"` has length 3, below the
50-character minimum filter, and fits within the default `chunk_size` 800, yet
`chunk_text` returns one segment (the text itself) rather than zero segments:
the short-text path returns `[text]` before the filter is ever consulted. -/
theorem c3_counterexample :
    chunk_text 800 150 1 ("abc" : String).data = some [("abc" : String).data]
    ∧ ("abc" : String).data.length < 50
    ∧ ("abc" : String).data.length ≤ 800
    ∧ [("abc" : String).data] ≠ ([] : List Str) := by decide

/-- Claim C3 (amended): for every input text whose length is at most
`chunk_size`, `chunk_text` returns exactly one segment equal to the text
verbatim — neither the trimming nor the 50-character minimum-length filter
applies on this path (they act only inside the long-text loop). -/
theorem c3_short_text_single_segment (cs ov fuel : ℕ) (text : Str)
    (h : text.length ≤ cs) : chunk_text cs ov fuel text = some [text] := by
  simp [chunk_text, h]

theorem c3_short_text_single_segment_witness :
    chunk_text 800 150 0 ("hola" : String).data = some [("hola" : String).data] :=
  c3_short_text_single_segment 800 150 0 ("hola" : String).data (by decide)

/-! ## Claim C4 -/

/-- Claim C4 counterexample: with `chunk_size = 60`, `chunk_overlap = 10`
(overlap < targetSize) on a 100-character text, the second window's stripped
segment has exactly 50 characters, fails the `> 50` filter and is dropped, so
position 99 of the text is covered by no produced segment's span. -/
theorem c4_counterexample :
    (10 : ℕ) < 60 ∧ 60 < aText.length
    ∧ chunkIters 60 10 aText 5 0 = some c4It
    ∧ chunk_text 60 10 5 aText = some [List.replicate 60 'a']
    ∧ (99 : ℕ) < aText.length
    ∧ ∀ r ∈ (chunkIters 60 10 aText 5 0).getD [],
        r.2.2.isSome = true → ¬(r.1 ≤ (99 : ℤ) ∧ (99 : ℤ) < r.2.1) := by decide

/-- Claim C4 (amended): whenever the chunking loop terminates on a text longer
than `chunk_size`, every character position of the text is covered by the span
of at least one iteration window (consecutive windows start `overlap`
characters before the previous cut), and the returned segments are exactly the
stripped windows that pass the 50-character minimum filter — so characters
lying only in filtered-out windows need not be covered by any returned
segment. -/
theorem c4_windows_cover (cs ov fuel : ℕ) (text : Str)
    (iters : List (ℤ × ℤ × Option Str)) (hlen : cs < text.length)
    (hit : chunkIters cs ov text fuel 0 = some iters) :
    chunk_text cs ov fuel text = some (iters.filterMap (fun r => r.2.2))
    ∧ ∀ c : ℕ, c < text.length →
        ∃ r ∈ iters, r.1 ≤ (c : ℤ) ∧ (c : ℤ) < r.2.1 := by
  constructor
  · rw [chunk_text, if_neg (by omega), hit]
    rfl
  · intro c hc
    have h := chunkIters_cover cs ov text fuel 0 0 iters le_rfl hit (c : ℤ)
      (by positivity) (by exact_mod_cast hc)
    rcases h with h | h
    · omega
    · exact h

theorem c4_windows_cover_witness :
    chunk_text 60 10 5 aText = some (c4It.filterMap (fun r => r.2.2))
    ∧ ∃ r ∈ c4It, r.1 ≤ (99 : ℤ) ∧ (99 : ℤ) < r.2.1 := by
  have h := c4_windows_cover 60 10 5 aText c4It (by decide) (by decide)
  exact ⟨h.1, h.2 99 (by decide)⟩

/-! ## Claim C5 -/

/-- Claim C5: the claim states that for overlap < targetSize the chunking loop
always terminates with a strictly advancing window start; the code violates
this. With `chunk_size = 100`, `chunk_overlap = 90` (overlap < targetSize) on
`t200`, the boundary snap cuts the second window at absolute position 99, the
next start is `99 - 90 = 9` — equal to the current start — and the loop runs
forever: no finite fuel makes the loop exit. -/
theorem c5_chunk_loop_nontermination :
    (∀ fuel : ℕ, chunk_text 100 90 fuel t200 = none)
    ∧ cutEnd 100 t200 9 - 90 = 9 := by
  refine ⟨?_, by decide⟩
  intro fuel
  rw [chunk_text, if_neg (by decide)]
  cases fuel with
  | zero => rfl
  | succ f =>
    have hstep : chunkIters 100 90 t200 (f + 1) 0
        = (chunkIters 100 90 t200 f 9).map (fun l => iterRec 100 t200 0 :: l) := by
      simp only [chunkIters, cutEnd_t200_zero, t200_length]
      norm_num
    rw [hstep, chunkIters_t200_stuck f]
    rfl

/-! ## Router helper lemmas -/

theorem mkResponse_sources (s : List SourceRec) (p : Provider) (r : RAGResponse)
    (h : mkResponse s p = some r) : r.sources = s := by
  unfold mkResponse at h
  cases hp : p.chat with
  | err m => rw [hp] at h; exact Option.noConfusion h
  | ok a b c d => rw [hp] at h; injection h with h; rw [← h]

/-- With a non-empty result list, `process_query` with no requested provider
dispatches every configured provider and keeps the non-erroring responses. -/
theorem process_query_dispatch (results : List (DocumentChunk × ℚ))
    (hres : results ≠ []) (providers : List Provider) :
    process_query results none providers
      = providers.filterMap (mkResponse (results.map (fun r => mkSource r.1 r.2))) := by
  rcases results with _ | ⟨x, xs⟩
  · exact absurd rfl hres
  · simp [process_query, retrieve_context, should_abstain]

/-- With a non-empty result list and a requested provider name,
`process_query` dispatches the name-filtered providers (Python treats the
empty requested string as falsy and skips the filter). -/
theorem process_query_dispatch_named (results : List (DocumentChunk × ℚ))
    (hres : results ≠ []) (pn : Str) (providers : List Provider) :
    process_query results (some pn) providers
      = (if pn ≠ [] then providers.filter (nameMatches pn) else providers).filterMap
          (mkResponse (results.map (fun r => mkSource r.1 r.2))) := by
  rcases results with _ | ⟨x, xs⟩
  · exact absurd rfl hres
  · by_cases hpn : pn = []
    · subst hpn
      simp [process_query, retrieve_context, should_abstain]
    · simp [process_query, retrieve_context, should_abstain, hpn]

theorem strContains_nil (hay : Str) : strContains hay [] = true := by
  refine List.any_eq_true.mpr ⟨0, by simp, by simp [List.isPrefixOf]⟩

theorem length_filterMap_mkResponse (s : List SourceRec) (l : List Provider) :
    (l.filterMap (mkResponse s)).length = (l.filter (fun p => p.chat.isOk)).length := by
  induction l with
  | nil => rfl
  | cons p t ih =>
    cases hp : p.chat with
    | err m => simp [mkResponse, hp, ChatOutcome.isOk, List.filter_cons, ih]
    | ok a b c d => simp [mkResponse, hp, ChatOutcome.isOk, List.filter_cons, ih]

/-! ## Claim C2 -/

/-- Claim C2: the Router abstains (returns exactly the one synthetic response
whose provider name is "System", whose sources are empty and whose token,
latency and cost fields are zero) if and only if the retriever produced zero
sources; on abstention the result is the same whatever providers are
configured, i.e. no backend is consulted. -/
theorem c2_abstention_iff_no_sources (results : List (DocumentChunk × ℚ))
    (pn : Option Str) (providers : List Provider) :
    (process_query results pn providers = [systemResponse] ↔ results = [])
    ∧ (results = [] → ∀ providers2 : List Provider,
        process_query results pn providers2 = [systemResponse])
    ∧ systemResponse.provider_name = ("System" : String).data
    ∧ systemResponse.sources = []
    ∧ systemResponse.tokens_used = 0
    ∧ systemResponse.latency = 0
    ∧ systemResponse.cost = 0 := by
  refine ⟨⟨?_, ?_⟩, ?_, rfl, rfl, rfl, rfl, rfl⟩
  · intro h
    rcases hres : results with _ | ⟨x, xs⟩
    · rfl
    · exfalso
      subst hres
      have hmem : systemResponse ∈ process_query (x :: xs) pn providers := by
        rw [h]
        exact List.mem_singleton.mpr rfl
      rcases pn with _ | q
      · rw [process_query_dispatch (x :: xs) (by simp) providers] at hmem
        rcases List.mem_filterMap.mp hmem with ⟨p, _, hp⟩
        have hsrc := mkResponse_sources _ p _ hp
        simp [systemResponse] at hsrc
      · rw [process_query_dispatch_named (x :: xs) (by simp) q providers] at hmem
        rcases List.mem_filterMap.mp hmem with ⟨p, _, hp⟩
        have hsrc := mkResponse_sources _ p _ hp
        simp [systemResponse] at hsrc
  · intro h
    subst h
    rfl
  · intro h providers2
    subst h
    rfl

theorem c2_abstention_iff_no_sources_witness :
    process_query [] none [providerOkA, providerOkB] = [systemResponse]
    ∧ process_query [] (some (("chatgpt" : String).data)) [] = [systemResponse] :=
  ⟨(c2_abstention_iff_no_sources [] none []).2.1 rfl [providerOkA, providerOkB],
   (c2_abstention_iff_no_sources [] (some (("chatgpt" : String).data)) []).2.1 rfl []⟩

/-! ## Claim C6 -/

/-- Claim C6: with at least one retrieved source and no requested provider
name, a backend whose chat call returns an error record is silently omitted:
removing it from the configuration leaves the response list unchanged, and the
response list has exactly one entry per non-erroring dispatched backend. -/
theorem c6_error_backend_omitted (results : List (DocumentChunk × ℚ))
    (hres : results ≠ []) (l1 l2 : List Provider) (p : Provider) (msg : Str)
    (hp : p.chat = .err msg) (providers : List Provider) :
    process_query results none (l1 ++ p :: l2) = process_query results none (l1 ++ l2)
    ∧ (process_query results none providers).length
        = (providers.filter (fun q => q.chat.isOk)).length := by
  constructor
  · rw [process_query_dispatch results hres, process_query_dispatch results hres]
    simp [List.filterMap_append, mkResponse, hp]
  · rw [process_query_dispatch results hres]
    exact length_filterMap_mkResponse _ providers

theorem c6_error_backend_omitted_witness :
    process_query demoResults none [providerOkA, providerBad, providerOkB]
      = process_query demoResults none [providerOkA, providerOkB]
    ∧ (process_query demoResults none [providerOkA, providerBad, providerOkB]).length
        = ([providerOkA, providerBad, providerOkB].filter (fun q => q.chat.isOk)).length :=
  c6_error_backend_omitted demoResults (by decide) [providerOkA] [providerOkB]
    providerBad (("rate limited" : String).data) (by decide)
    [providerOkA, providerBad, providerOkB]

/-! ## Claim C7 -/

/-- Claim C7: with at least one retrieved source, requesting a backend by name
dispatches exactly the configured backends whose display name contains the
requested name as a case-insensitive substring (the empty requested name is
falsy in Python and dispatches everything, which coincides with the
all-matching filter); when no display name matches, the response list is
empty and no error is raised. -/
theorem c7_dispatch_by_name (results : List (DocumentChunk × ℚ))
    (hres : results ≠ []) (pn : Str) (providers : List Provider) :
    process_query results (some pn) providers
      = (providers.filter (nameMatches pn)).filterMap
          (mkResponse (results.map (fun r => mkSource r.1 r.2)))
    ∧ ((∀ p ∈ providers, nameMatches pn p = false) →
        process_query results (some pn) providers = []) := by
  have hmain :
      process_query results (some pn) providers
        = (providers.filter (nameMatches pn)).filterMap
            (mkResponse (results.map (fun r => mkSource r.1 r.2))) := by
    rw [process_query_dispatch_named results hres]
    by_cases hpn : pn = []
    · subst hpn
      have hall : providers.filter (nameMatches []) = providers :=
        List.filter_eq_self.mpr (fun p _ => by
          simp [nameMatches, lowerStr, strContains_nil])
      rw [if_neg (by simp), hall]
    · rw [if_pos hpn]
  refine ⟨hmain, fun hnone => ?_⟩
  rw [hmain, List.filter_eq_nil_iff.mpr ?_]
  · rfl
  · intro p hmem
    simp [hnone p hmem]

theorem c7_dispatch_by_name_witness :
    process_query demoResults (some (("deepseek" : String).data)) [providerOkA, providerOkB]
      = ([providerOkA, providerOkB].filter (nameMatches (("deepseek" : String).data))).filterMap
          (mkResponse (demoResults.map (fun r => mkSource r.1 r.2)))
    ∧ process_query demoResults (some (("claude" : String).data)) [providerOkA, providerOkB]
        = [] :=
  ⟨(c7_dispatch_by_name demoResults (by decide) (("deepseek" : String).data)
      [providerOkA, providerOkB]).1,
   (c7_dispatch_by_name demoResults (by decide) (("claude" : String).data)
      [providerOkA, providerOkB]).2 (by decide)⟩

/-! ## Claim C8 -/

/-- Claim C8: for every price table, model and non-negative token counts, the
estimated cost is `input_tokens / 1000` times the model's input rate plus
`output_tokens / 1000` times its output rate when the model has a price-table
entry, and exactly 0 (with no error raised — the function is total) when the
model is absent from the table. -/
theorem c8_cost_formula (pricing : List (Str × ℚ × ℚ)) (model : Str)
    (input_tokens output_tokens : ℕ) :
    (∀ e, pricing.find? (fun q => q.1 == model) = some e →
      estimate_cost pricing model input_tokens output_tokens
        = (input_tokens : ℚ) / 1000 * e.2.1 + (output_tokens : ℚ) / 1000 * e.2.2)
    ∧ (pricing.find? (fun q => q.1 == model) = none →
      estimate_cost pricing model input_tokens output_tokens = 0) := by
  constructor
  · intro e he
    simp [estimate_cost, he]
  · intro he
    simp [estimate_cost, he]

theorem c8_cost_formula_witness :
    estimate_cost chatgptPRICING (("gpt-4" : String).data) 2000 500
      = (2000 : ℚ) / 1000 * 0.03 + (500 : ℚ) / 1000 * 0.06
    ∧ estimate_cost deepseekPRICING (("gpt-4" : String).data) 2000 500 = 0 :=
  ⟨(c8_cost_formula chatgptPRICING (("gpt-4" : String).data) 2000 500).1
      ((("gpt-4" : String).data), 0.03, 0.06) rfl,
   (c8_cost_formula deepseekPRICING (("gpt-4" : String).data) 2000 500).2 rfl⟩

/-! ## Claim C9 -/

/-- Claim C9 counterexample: the claim says the ellipsis marker is appended if
and only if the content was actually truncated; for a chunk whose content has
5 characters (not truncated, under the 300-character cap) the built source
still carries preview `"short..."` with the marker appended. -/
theorem c9_counterexample :
    (retrieve_context [(chunkShort, 1)]).2
      = [{ title := chunkShort.title, page := chunkShort.page,
           content := ("short..." : String).data, doc_id := chunkShort.doc_id,
           score := 1, url := chunkShort.url, vigencia := chunkShort.vigencia }]
    ∧ chunkShort.content.length ≤ 300
    ∧ ("short..." : String).data ≠ chunkShort.content := by decide

/-- Claim C9 (amended): every RetrievedSource built by the Retriever carries a
preview equal to the first 300 characters of the segment's content with the
ellipsis marker always appended (hence at most 303 characters in total, and
the marker appears even when nothing was truncated), together with the full
metadata and the similarity score. -/
theorem c9_preview_always_ellipsis (results : List (DocumentChunk × ℚ))
    (c : DocumentChunk) (sc : ℚ) :
    (retrieve_context results).2 = results.map (fun r => mkSource r.1 r.2)
    ∧ (mkSource c sc).content = c.content.take 300 ++ ("..." : String).data
    ∧ (mkSource c sc).content.length ≤ 303
    ∧ (mkSource c sc).score = sc
    ∧ (mkSource c sc).title = c.title
    ∧ (mkSource c sc).page = c.page
    ∧ (mkSource c sc).doc_id = c.doc_id
    ∧ (mkSource c sc).url = c.url
    ∧ (mkSource c sc).vigencia = c.vigencia := by
  refine ⟨?_, rfl, ?_, rfl, rfl, rfl, rfl, rfl, rfl⟩
  · rcases results with _ | ⟨x, xs⟩ <;> simp [retrieve_context]
  · have h1 : (c.content.take 300).length ≤ 300 := by
      rw [List.length_take]
      omega
    have h2 : (("..." : String).data).length = 3 := by decide
    simp only [mkSource, List.length_append, h2]
    omega

/-! ## Claim C10 -/

/-- Claim C10: on an empty expected-sources list the two evaluator metrics
disagree: precision-at-k is 0 whatever was retrieved (even when sources were
retrieved), while citation coverage is 1 for the same empty expected list. -/
theorem c10_metrics_disagree_on_empty_expected (response : RAGResponse)
    (retrieved : List SourceRec) (k : ℕ) :
    calculate_precision_at_k retrieved ([] : List Str) k = 0
    ∧ calculate_citation_coverage response ([] : List Str) = 1
    ∧ calculate_precision_at_k retrieved ([] : List Str) k
        ≠ calculate_citation_coverage response ([] : List Str) := by
  refine ⟨?_, ?_, ?_⟩
  · simp [calculate_precision_at_k]
  · simp [calculate_citation_coverage]
  · simp [calculate_precision_at_k, calculate_citation_coverage]

/-! ## Claim C1 -/

/-- Claim C1: the claim states that every returned hit corresponds to a valid
stored row and that `k ≥` index size returns every stored segment exactly
once; the code violates this. On a one-row index queried with `k = 2`, FAISS
pads the missing slot with row id `-1`; the guard `idx < len(self.chunks)`
accepts `-1` and Python's negative indexing wraps it to the last stored chunk,
so the single stored segment is returned twice. -/
theorem c1_padding_duplicates_last_row :
    searchModel [chunkA] [1] 2 = some [(chunkA, 1), (chunkA, faissLowest)]
    ∧ [chunkA].length = 1
    ∧ ((searchModel [chunkA] [1] 2).getD []).map Prod.fst = [chunkA, chunkA]
    ∧ ((searchModel [chunkA] [1] 2).getD []).map Prod.fst ≠ [chunkA] := by decide
